import Mathlib

/-!
Verification of the build-plan resolver of `librocksdb-sys/build.rs`.

The build script decides, from the target triple, the enabled cargo features
and a snapshot of environment variables, whether to link an installed system
library or compile the bundled sources, and assembles the compiler
configuration (defines, flags, include dirs, source files) and the sequence
of `cargo:` directives.  Everything below is a shallow embedding of that
script: pure Lean functions over an explicit input snapshot, mirroring the
source's control flow.  External effects (running the compiler, bindgen,
filesystem probes, `git submodule update`) are modelled as boolean/string
fields of the input snapshot recording their outcome.
-/

set_option maxRecDepth 4000

namespace RocksBuild

/-- A snapshot of the process environment, as an association list.
`envVar` mirrors `std::env::var` / `env::var_os` (first binding wins). -/
abbrev Env := List (String × String)

def envVar (env : Env) (name : String) : Option String :=
  (env.find? (fun p => p.1 == name)).map (·.2)

/-- `leadsWith pat l` is true when `pat` is an initial segment of `l`. -/
def leadsWith : List Char → List Char → Bool
  | [], _ => true
  | _ :: _, [] => false
  | a :: as, b :: bs => a == b && leadsWith as bs

/-- `hasSubList pat l` is true when `pat` occurs contiguously inside `l`. -/
def hasSubList (pat : List Char) : List Char → Bool
  | [] => pat.isEmpty
  | c :: rest => leadsWith pat (c :: rest) || hasSubList pat rest

/-- Substring containment, mirroring Rust's `str::contains` with a string
pattern. -/
def strContains (s pat : String) : Bool :=
  hasSubList pat.toList s.toList

/-- ASCII lowercasing of one character (`A`-`Z` map to `a`-`z`).  Rust's
`to_lowercase` is Unicode-aware, but every string this script lowercases is
compared against the ASCII words `"true"`, `"rocksdb"`, `"snappy"`, for
which the two notions agree. -/
def charLower (c : Char) : Char :=
  if c.toNat ≥ 65 && c.toNat ≤ 90 then Char.ofNat (c.toNat + 32) else c

/-- Lowercasing of a string, character by character. -/
def strToLower (s : String) : String :=
  ⟨s.data.map charLower⟩

/-- Splitting a character list at every occurrence of `sep`, mirroring
Rust's `split` with a one-character pattern (adjacent separators produce
empty segments). -/
def splitOnChar (sep : Char) : List Char → List (List Char)
  | [] => [[]]
  | c :: rest =>
    match splitOnChar sep rest with
    | [] => if c == sep then [[], []] else [[c]]
    | h :: t => if c == sep then [] :: h :: t else (c :: h) :: t

/-- Splitting a string at every occurrence of the character `sep`. -/
def strSplitOnChar (sep : Char) (s : String) : List String :=
  (splitOnChar sep s.data).map (fun l => ⟨l⟩)

/-- One emitted `cargo:` line that the build script prints.  Diagnostic
`cargo:warning=` lines are not modelled (they carry no build semantics). -/
inductive Directive where
  | rerunIfEnvChanged (name : String)
  | rerunIfChanged (path : String)
  | linkSearch (path : String)
  | linkLib (mode : String) (name : String)
  | linkLibDefault (name : String)
  | cargoMeta (key : String) (value : String)
deriving DecidableEq, Repr

/-- Per optional dependency, the resolved strategy (data-model of the spec's
Feature & Dependency Resolver). -/
inductive DependencyDecision where
  | BuildBundled
  | LinkSystem (searchPath : String) (static : Bool)
deriving DecidableEq, Repr

/-- The truthiness test applied to `<DEP>_COMPILE` values in
`try_to_find_and_link_lib`: `v.to_lowercase() == "true" || v == "1"`. -/
def isTruthy (v : String) : Bool :=
  strToLower v == "true" || v == "1"

/-- The guard of lines 545-549: `<lib>_COMPILE` is set and truthy. -/
def forcedCompile (env : Env) (libName : String) : Bool :=
  match envVar env (libName ++ "_COMPILE") with
  | some v => isTruthy v
  | none => false

/-- Embedding of `try_to_find_and_link_lib(lib_name)`.  Returns the boolean
result (`true` = a system library was found and linked) together with the
`cargo:` lines printed during the call, in order. -/
def try_to_find_and_link_lib (env : Env) (libName : String) :
    Bool × List Directive :=
  let d0 := [Directive.rerunIfEnvChanged (libName ++ "_COMPILE")]
  if forcedCompile env libName then
    (false, d0)
  else
    let d1 := d0 ++ [Directive.rerunIfEnvChanged (libName ++ "_LIB_DIR"),
                     Directive.rerunIfEnvChanged (libName ++ "_STATIC")]
    match envVar env (libName ++ "_LIB_DIR") with
    | some libDir =>
        let mode :=
          if (envVar env (libName ++ "_STATIC")).isSome then "static" else "dylib"
        (true, d1 ++ [Directive.linkSearch libDir,
                      Directive.linkLib mode (strToLower libName)])
    | none => (false, d1)

/-- The spec's three-way decision rule for a dependency (spec §4.3), written
from the spec's words for comparison with `try_to_find_and_link_lib`:
truthy `<DEP>_COMPILE` forces `BuildBundled`; else a present `<DEP>_LIB_DIR`
gives `LinkSystem(path, static = <DEP>_STATIC is set)`; else `BuildBundled`. -/
def decideSpec (env : Env) (d : String) : DependencyDecision :=
  if forcedCompile env d then
    DependencyDecision.BuildBundled
  else
    match envVar env (d ++ "_LIB_DIR") with
    | some p =>
        DependencyDecision.LinkSystem p (envVar env (d ++ "_STATIC")).isSome
    | none => DependencyDecision.BuildBundled

/-- The link-relevant directives of a directive sequence (dropping the
`rerun-if-*` bookkeeping lines and metadata lines). -/
def linkDirectivesOf (l : List Directive) : List Directive :=
  l.filter fun d =>
    match d with
    | Directive.linkSearch _ => true
    | Directive.linkLib _ _ => true
    | Directive.linkLibDefault _ => true
    | _ => false

/-- The cargo feature flags consulted through `cfg!(feature = ...)` in the
build script. -/
structure Features where
  snappy : Bool
  lz4 : Bool
  zstd : Bool
  zlib : Bool
  bzip2 : Bool
  rtti : Bool
  lto : Bool
  jemalloc : Bool
  ioUring : Bool
  mtStatic : Bool
deriving DecidableEq, Repr

/-- The resolved Nix toolchain/library paths (`struct NixPaths`). -/
structure NixPaths where
  glibc_dev : String
  gcc_path : String
  gcc_cpp_include : String
  zlib_include : String
  bzip2_include : String
  lz4_include : String
  lz4_lib : String
  zstd_include : String
  zstd_lib : String
  llvm_config : String
  libclang_path : String
  llvm_config_path : String
deriving DecidableEq, Repr

/-- Modelled from the spec: the hardcoded default path values come from the
external `rust_nix_bootstrap` crate (`HardcodedNixPaths`), which is not part
of this repository; each value is a fixed constant that the Override Resolver
merges with the environment (environment takes precedence, spec section 4.2).
The concrete strings are placeholders for those fixed constants. -/
def hardcodedNixPaths : NixPaths :=
  { glibc_dev := "/nix/store/hardcoded-glibc-dev"
    gcc_path := "/nix/store/hardcoded-gcc"
    gcc_cpp_include := "/nix/store/hardcoded-gcc-cpp-include"
    zlib_include := "/nix/store/hardcoded-zlib-include"
    bzip2_include := "/nix/store/hardcoded-bzip2-include"
    lz4_include := "/nix/store/hardcoded-lz4-include"
    lz4_lib := "/nix/store/hardcoded-lz4-lib"
    zstd_include := "/nix/store/hardcoded-zstd-include"
    zstd_lib := "/nix/store/hardcoded-zstd-lib"
    llvm_config := "/nix/store/hardcoded-llvm-config"
    libclang_path := "/nix/store/hardcoded-libclang"
    llvm_config_path := "/nix/store/hardcoded-llvm-config-path" }

/-- `get_nix_path_from_env`: environment value if present, else the hardcoded
fallback (the diagnostic `cargo:warning` lines are not modelled). -/
def get_nix_path_from_env (env : Env) (name : String) (hardcoded : String) :
    String :=
  match envVar env name with
  | some p => p
  | none => hardcoded

/-- `NixPaths::default_nix_paths`. -/
def default_nix_paths (env : Env) : NixPaths :=
  { glibc_dev := get_nix_path_from_env env "NIX_GLIBC_DEV" hardcodedNixPaths.glibc_dev
    gcc_path := get_nix_path_from_env env "NIX_GCC_PATH" hardcodedNixPaths.gcc_path
    gcc_cpp_include :=
      get_nix_path_from_env env "NIX_GCC_CPP_INCLUDE" hardcodedNixPaths.gcc_cpp_include
    zlib_include := get_nix_path_from_env env "NIX_ZLIB_INCLUDE" hardcodedNixPaths.zlib_include
    bzip2_include := get_nix_path_from_env env "NIX_BZIP2_INCLUDE" hardcodedNixPaths.bzip2_include
    lz4_include := get_nix_path_from_env env "NIX_LZ4_INCLUDE" hardcodedNixPaths.lz4_include
    lz4_lib := get_nix_path_from_env env "NIX_LZ4_LIB" hardcodedNixPaths.lz4_lib
    zstd_include := get_nix_path_from_env env "NIX_ZSTD_INCLUDE" hardcodedNixPaths.zstd_include
    zstd_lib := get_nix_path_from_env env "NIX_ZSTD_LIB" hardcodedNixPaths.zstd_lib
    llvm_config := get_nix_path_from_env env "NIX_LLVM_CONFIG" hardcodedNixPaths.llvm_config
    libclang_path :=
      get_nix_path_from_env env "NIX_LIBCLANG_PATH" hardcodedNixPaths.libclang_path
    llvm_config_path :=
      get_nix_path_from_env env "NIX_LLVM_CONFIG_PATH" hardcodedNixPaths.llvm_config_path }

/-- The full input snapshot of one resolver run: the environment, the cargo
feature set, and the outcomes of the external probes the script performs
(compiler-family detection by `cc`, `flag_if_supported` probes, filesystem
checks, the submodule fetch, bindgen, the `pkg-config` probe for liburing,
and the contents of the external master source list
`rocksdb_lib_sources.txt`). -/
structure BuildInput where
  env : Env
  features : Features
  isLikeClang : Bool
  supportedFlags : List String
  authorsExists : Bool
  submoduleUpdateOk : Bool
  bindgenOk : Bool
  rocksdbDirEmpty : Bool
  snappyDirEmpty : Bool
  snappyStubsOk : Bool
  masterSources : List String
  uringAvailable : Bool
deriving DecidableEq, Repr

/-- The assembled `cc::Build` configuration of one compilation unit. -/
structure CcBuild where
  compiler : String
  includes : List String
  defines : List (String × Option String)
  flags : List String
  files : List String
  staticCrt : Bool
deriving DecidableEq, Repr

/-- `rocksdb_include_dir()`. -/
def rocksdb_include_dir (env : Env) : String :=
  match envVar env "ROCKSDB_INCLUDE_DIR" with
  | some v => v
  | none => "rocksdb/include"

/-- `cxx_standard()`. -/
def cxx_standard : String := "-std=c++20"

/-- `NO_JEMALLOC_TARGETS`: platforms on which a prefixed jemalloc cannot be
linked together with RocksDB. -/
def NO_JEMALLOC_TARGETS : List String := ["android", "dragonfly", "musl", "darwin"]

/-- The jemalloc gate of line 433: the feature is requested and no member of
the exclusion set occurs in the target string. -/
def jemallocActive (f : Features) (target : String) : Bool :=
  f.jemalloc && NO_JEMALLOC_TARGETS.all (fun i => !(strContains target i))

/-- The compression-codec and rtti defines of `build_rocksdb`
(lines 224-277), in source order. -/
def codecDefines (f : Features) : List (String × Option String) :=
  (if f.snappy then [("SNAPPY", some "1")] else []) ++
  (if f.lz4 then [("LZ4", some "1")] else []) ++
  (if f.zstd then [("ZSTD", some "1")] else []) ++
  (if f.zlib then [("ZLIB", some "1")] else []) ++
  (if f.bzip2 then [("BZIP2", some "1")] else []) ++
  (if f.rtti then [("USE_RTTI", some "1")] else [])

/-- The platform define chain of `build_rocksdb` (lines 335-429): a single
if/else-if chain over substring tests of the target, in source order. -/
def osDefines (target : String) : List (String × Option String) :=
  if strContains target "apple-ios" then
    [("OS_MACOSX", none), ("IOS_CROSS_COMPILE", none), ("PLATFORM", some "IOS"),
     ("NIOSTATS_CONTEXT", none), ("NPERF_CONTEXT", none),
     ("ROCKSDB_PLATFORM_POSIX", none), ("ROCKSDB_LIB_IO_POSIX", none)]
  else if strContains target "darwin" then
    [("OS_MACOSX", none), ("ROCKSDB_PLATFORM_POSIX", none),
     ("ROCKSDB_LIB_IO_POSIX", none)]
  else if strContains target "android" then
    [("OS_ANDROID", none), ("ROCKSDB_PLATFORM_POSIX", none),
     ("ROCKSDB_LIB_IO_POSIX", none)] ++
    (if target == "armv7-linux-androideabi" then [("_FILE_OFFSET_BITS", some "32")] else [])
  else if strContains target "aix" then
    [("OS_AIX", none), ("ROCKSDB_PLATFORM_POSIX", none),
     ("ROCKSDB_LIB_IO_POSIX", none)]
  else if strContains target "linux" then
    [("OS_LINUX", none), ("ROCKSDB_PLATFORM_POSIX", none),
     ("ROCKSDB_LIB_IO_POSIX", none), ("ROCKSDB_SCHED_GETCPU_PRESENT", none)]
  else if strContains target "dragonfly" then
    [("OS_DRAGONFLYBSD", none), ("ROCKSDB_PLATFORM_POSIX", none),
     ("ROCKSDB_LIB_IO_POSIX", none)]
  else if strContains target "freebsd" then
    [("OS_FREEBSD", none), ("ROCKSDB_PLATFORM_POSIX", none),
     ("ROCKSDB_LIB_IO_POSIX", none)]
  else if strContains target "netbsd" then
    [("OS_NETBSD", none), ("ROCKSDB_PLATFORM_POSIX", none),
     ("ROCKSDB_LIB_IO_POSIX", none)]
  else if strContains target "openbsd" then
    [("OS_OPENBSD", none), ("ROCKSDB_PLATFORM_POSIX", none),
     ("ROCKSDB_LIB_IO_POSIX", none)]
  else if strContains target "windows" then
    [("DWIN32", none), ("OS_WIN", none), ("_MBCS", none), ("WIN64", none),
     ("NOMINMAX", none), ("ROCKSDB_WINDOWS_UTF8_FILENAMES", none)] ++
    (if target == "x86_64-pc-windows-gnu" then
       [("_POSIX_C_SOURCE", some "1"), ("_WIN32_WINNT", some "_WIN32_WINNT_VISTA")]
     else [])
  else []

/-- True exactly when the `windows` arm of the platform if/else-if chain is
taken: none of the earlier substring tests matched and the target contains
`windows`. -/
def windowsBranch (target : String) : Bool :=
  !strContains target "apple-ios" && !strContains target "darwin" &&
  !strContains target "android" && !strContains target "aix" &&
  !strContains target "linux" && !strContains target "dragonfly" &&
  !strContains target "freebsd" && !strContains target "netbsd" &&
  !strContains target "openbsd" && strContains target "windows"

/-- The jemalloc defines of lines 433-435. -/
def jemallocDefines (f : Features) (target : String) : List (String × Option String) :=
  if jemallocActive f target then
    [("ROCKSDB_JEMALLOC", some "1"), ("JEMALLOC_NO_DEMANGLE", some "1")]
  else []

/-- The io-uring define of lines 441-446 (the `pkg-config` probe failure is
handled separately in `build_rocksdb`). -/
def iouringDefines (f : Features) (target : String) : List (String × Option String) :=
  if f.ioUring && strContains target "linux" then
    [("ROCKSDB_IOURING_PRESENT", some "1")]
  else []

/-- The large-file defines of lines 448-453.  `width` is the value of
`CARGO_CFG_TARGET_POINTER_WIDTH`; it is only read when the target differs
from `armv7-linux-androideabi` (Rust's `&&` short-circuits). -/
def fileOffsetDefines (target width : String) : List (String × Option String) :=
  if target != "armv7-linux-androideabi" && width != "64" then
    [("_FILE_OFFSET_BITS", some "64"), ("_LARGEFILE64_SOURCE", some "1")]
  else []

/-- The full ordered define list assembled by `build_rocksdb`, in the order
the source adds them to the `cc::Build`. -/
def rocksdbDefines (f : Features) (target width : String) :
    List (String × Option String) :=
  codecDefines f ++ [("NDEBUG", some "1")] ++ osDefines target ++
  [("ROCKSDB_SUPPORT_THREAD_LOCAL", none)] ++ jemallocDefines f target ++
  iouringDefines f target ++ fileOffsetDefines target width

/-- The four POSIX platform-abstraction sources removed on the windows arm
(lines 402-414), matched by exact relative path. -/
def posixSources : List String :=
  ["port/port_posix.cc", "env/env_posix.cc", "env/fs_posix.cc", "env/io_posix.cc"]

/-- The six windows replacement sources appended on the windows arm
(lines 417-424). -/
def winSources : List String :=
  ["port/win/env_default.cc", "port/win/env_win.cc", "port/win/io_win.cc",
   "port/win/port_win.cc", "port/win/win_logger.cc", "port/win/win_thread.cc"]

/-- The composed `lib_sources` list: the master list minus
`util/build_version.cc` (line 298), with the POSIX removals/windows additions
and the optional jemalloc glue file applied when the windows arm of the
platform chain is taken (lines 402-428). -/
def composedLibSources (master : List String) (f : Features) (target : String) :
    List String :=
  let base := master.filter (fun file => file != "util/build_version.cc")
  if windowsBranch target then
    let noPosix := base.filter (fun file => !(posixSources.contains file))
    noPosix ++ winSources ++
      (if f.jemalloc then ["port/win/win_jemalloc.cc"] else [])
  else base

/-- The file list handed to `cc` (lines 479-483): each composed source
prefixed with `rocksdb/`, then the pre-generated `build_version.cc`,
added unconditionally. -/
def rocksdbFiles (master : List String) (f : Features) (target : String) :
    List String :=
  (composedLibSources master f target).map (fun file => "rocksdb/" ++ file) ++
  ["build_version.cc"]

/-- The x86-64 feature flags of lines 301-333, each added through
`flag_if_supported` (modelled by membership in the probed `supported` set).
`tfeat` is `env::var("CARGO_CFG_TARGET_FEATURE")`. -/
def x86Flags (target : String) (tfeat : Option String) (supported : List String) :
    List String :=
  match tfeat with
  | none => []
  | some tf =>
    if strContains target "x86_64" then
      let fs := strSplitOnChar ',' tf
      (if fs.contains "sse2" && supported.contains "-msse2" then ["-msse2"] else []) ++
      (if fs.contains "sse4.1" && supported.contains "-msse4.1" then ["-msse4.1"] else []) ++
      (if fs.contains "sse4.2" && supported.contains "-msse4.2" then ["-msse4.2"] else []) ++
      (if fs.contains "avx2" && supported.contains "-mavx2" then ["-mavx2"] else []) ++
      (if fs.contains "bmi1" && supported.contains "-mbmi" then ["-mbmi"] else []) ++
      (if fs.contains "lzcnt" && supported.contains "-mlzcnt" then ["-mlzcnt"] else []) ++
      (if !(strContains target "android") && fs.contains "pclmulqdq" &&
          supported.contains "-mpclmul" then ["-mpclmul"] else [])
    else []

/-- The full ordered flag list of `build_rocksdb`, in the order the source
adds flags to the `cc::Build` (lines 216, 281, 310-332, 455-474, 486-491). -/
def rocksdbFlags (inp : BuildInput) (nix : NixPaths) (target : String) :
    List String :=
  ["-isystem" ++ nix.glibc_dev ++ "/include"] ++
  (if inp.features.lto then ["-flto"] else []) ++
  x86Flags target (envVar inp.env "CARGO_CFG_TARGET_FEATURE") inp.supportedFlags ++
  (if strContains target "msvc" then
     ["-EHsc", "-std:c++20"]
   else
     [cxx_standard, "-Wfatal-errors", "-Wsign-compare", "-Wshadow",
      "-Wno-unused-parameter", "-Wno-unused-variable", "-Woverloaded-virtual",
      "-Wnon-virtual-dtor", "-Wno-missing-field-initializers",
      "-Wno-strict-aliasing", "-Wno-invalid-offsetof"]) ++
  (if inp.supportedFlags.contains "-std=c++20" then ["-std=c++20"] else []) ++
  (if !(strContains target "windows") then
     ["-include", "cstdint", "-include", "cstddef"]
   else [])

/-- The ordered include list of `build_rocksdb` (lines 219-273, 289-290,
436-438). -/
def rocksdbIncludes (env : Env) (f : Features) (nix : NixPaths) (target : String) :
    List String :=
  [nix.gcc_cpp_include, rocksdb_include_dir env] ++
  (if f.snappy then ["snappy/"] else []) ++
  (if f.lz4 then [nix.lz4_include] else []) ++
  (if f.zstd then [nix.zstd_include] else []) ++
  (if f.zlib then [nix.zlib_include] else []) ++
  (if f.bzip2 then [nix.bzip2_include] else []) ++
  [".", "rocksdb/"] ++
  (if jemallocActive f target then
     match envVar env "DEP_JEMALLOC_ROOT" with
     | some root => [root ++ "/include"]
     | none => []
   else [])

/-- `link(name, bundled)` (lines 141-152).  The source re-reads `TARGET`
from the environment; every call happens after `main` has read the same
value, so the embedding takes the target string directly.  `manifestDir`
models `CARGO_MANIFEST_DIR` (the source unwraps it, but only on the
`bundled && gnu` path, and both call sites in this script pass
`bundled = false`). -/
def linkFn (target : String) (manifestDir : Option String) (name : String)
    (bundled : Bool) : List Directive :=
  let parts := strSplitOnChar '-' target
  if parts.get? 2 == some "windows" then
    [Directive.linkLib "dylib" name] ++
    (if bundled && (parts.get? 3 == some "gnu") then
       [Directive.linkSearch ((manifestDir.getD "") ++ "/" ++ ((parts.get? 0).getD ""))]
     else [])
  else []

/-- The `cargo:` lines printed while `build_rocksdb` assembles its plan, in
order: lz4 (lines 235-237), zstd (lines 255-257), the windows `link` calls
(lines 384-385, on the windows arm of the platform chain), and the riscv64gc
libatomic line (line 477). -/
def rocksdbBuildDirectives (env : Env) (f : Features) (nix : NixPaths)
    (target : String) : List Directive :=
  (if f.lz4 then
     [Directive.linkSearch nix.lz4_lib, Directive.linkLib "dylib" "lz4"]
   else []) ++
  (if f.zstd then
     [Directive.linkSearch nix.zstd_lib, Directive.linkLib "dylib" "zstd"]
   else []) ++
  (if windowsBranch target then
     linkFn target (envVar env "CARGO_MANIFEST_DIR") "rpcrt4" false ++
     linkFn target (envVar env "CARGO_MANIFEST_DIR") "shlwapi" false
   else []) ++
  (if strContains target "riscv64gc" then [Directive.linkLibDefault "atomic"] else [])

/-- The panic message of the LTO/compiler-family check (lines 283-286). -/
def ltoPanicMsg : String :=
  "LTO is only supported with clang. Either disable the `lto` feature or set `CC=/usr/bin/clang CXX=/usr/bin/clang++` environment variables."

/-- The panic message of the liburing `pkg-config` probe (line 444). -/
def uringPanicMsg : String :=
  "The io-uring feature was requested but the library is not available"

/-- An `env::var(name).unwrap()`: the value when set, a panic otherwise. -/
def requiredEnv (env : Env) (name : String) : Except String String :=
  match envVar env name with
  | some v => Except.ok v
  | none => Except.error ("environment variable " ++ name ++ " is not set")

/-- The result of `build_rocksdb`: the assembled compilation plan and the
`cargo:` lines it printed. -/
structure BuildOutput where
  cfg : CcBuild
  dirs : List Directive
deriving DecidableEq, Repr

/-- Embedding of `build_rocksdb`.  The fallible steps, in the source's
abort order: the LTO/compiler-family check (line 283), the liburing probe
(line 443), and the `CARGO_CFG_TARGET_POINTER_WIDTH` unwrap (line 449,
reached only when the target differs from `armv7-linux-androideabi`).  On
success it returns the plan assembled from the segment functions above. -/
def build_rocksdb (inp : BuildInput) (nix : NixPaths) (target : String) :
    Except String BuildOutput :=
  if inp.features.lto && !inp.isLikeClang then
    Except.error ltoPanicMsg
  else if inp.features.ioUring && strContains target "linux" && !inp.uringAvailable then
    Except.error uringPanicMsg
  else
    -- the unwrap of the pointer width is short-circuited away on
    -- armv7-linux-androideabi; the value is never read below in that case
    -- (fileOffsetDefines ignores it)
    match (if target == "armv7-linux-androideabi" then Except.ok "64"
           else requiredEnv inp.env "CARGO_CFG_TARGET_POINTER_WIDTH") with
    | Except.error e => Except.error e
    | Except.ok width =>
      Except.ok
        { cfg :=
            { compiler := nix.gcc_path ++ "/bin/g++"
              includes := rocksdbIncludes inp.env inp.features nix target
              defines := rocksdbDefines inp.features target width
              flags := rocksdbFlags inp nix target
              files := rocksdbFiles inp.masterSources inp.features target
              staticCrt := strContains target "msvc" && inp.features.mtStatic }
          dirs := rocksdbBuildDirectives inp.env inp.features nix target }

/-- Embedding of `build_snappy` (lines 500-541). -/
def build_snappy (inp : BuildInput) (nix : NixPaths) (target : String) :
    Except String CcBuild :=
  match requiredEnv inp.env "CARGO_CFG_TARGET_ENDIAN",
        requiredEnv inp.env "OUT_DIR" with
  | Except.error e, _ => Except.error e
  | _, Except.error e => Except.error e
  | Except.ok endianness, Except.ok outDir =>
  if !inp.snappyStubsOk then
    Except.error "Failed to read snappy-stubs-public.h.in"
  else
    Except.ok
    { compiler := nix.gcc_path ++ "/bin/g++"
      includes := [nix.gcc_cpp_include, "snappy/", outDir]
      defines := [("NDEBUG", some "1")] ++
        (if endianness == "big" then [("SNAPPY_IS_BIG_ENDIAN", some "1")] else [])
      flags := ["-isystem" ++ nix.glibc_dev ++ "/include"] ++
        (if strContains target "msvc" then ["-EHsc"] else ["-std=c++11"])
      files := ["snappy/snappy.cc", "snappy/snappy-sinksource.cc", "snappy/snappy-c.cc"]
      staticCrt := strContains target "msvc" && inp.features.mtStatic }

/-- `cpp_link_stdlib(target)` (lines 590-602): the explicit C++ runtime link
directives, emitted only on the system-library path of `main`. -/
def cpp_link_stdlib (env : Env) (target : String) : List Directive :=
  match envVar env "CXXSTDLIB" with
  | some stdlib => [Directive.linkLib "dylib" stdlib]
  | none =>
    if strContains target "apple" || strContains target "freebsd" ||
       strContains target "openbsd" then
      [Directive.linkLib "dylib" "c++"]
    else if strContains target "linux" then
      [Directive.linkLib "dylib" "stdc++"]
    else if strContains target "aix" then
      [Directive.linkLib "dylib" "c++", Directive.linkLib "dylib" "c++abi"]
    else []

/-- The outcome of the top-level library phase of `main` (lines 680-699):
whether the bundled build ran, the `cargo:` lines emitted so far, whether
`main` returns early (the freebsd carve-out), and the bundled plan if one
was produced. -/
structure RocksPhase where
  builtBundled : Bool
  dirs : List Directive
  earlyReturn : Bool
  plan : Option CcBuild
deriving DecidableEq, Repr

/-- The top-level system-vs-bundled phase of `main` (lines 680-699):
`try_to_find_and_link_lib("ROCKSDB")` first; on failure the freebsd
carve-out links the system library from `/usr/local/lib` and returns early,
otherwise the bundled build runs (after the empty-directory check); on
success `cpp_link_stdlib` emits the runtime directives. -/
def rocksdbPhase (inp : BuildInput) (nix : NixPaths) (target : String) :
    Except String RocksPhase :=
  let r := try_to_find_and_link_lib inp.env "ROCKSDB"
  if !r.1 then
    if strContains target "freebsd" then
      let mode := if (envVar inp.env "ROCKSDB_STATIC").isSome then "static" else "dylib"
      Except.ok { builtBundled := false
                  dirs := r.2 ++ [Directive.linkSearch "/usr/local/lib",
                                  Directive.linkLib mode "rocksdb"]
                  earlyReturn := true
                  plan := none }
    else if inp.rocksdbDirEmpty then
      Except.error "the rocksdb directory is empty"
    else
      match build_rocksdb inp nix target with
      | Except.error e => Except.error e
      | Except.ok out =>
        Except.ok { builtBundled := true
                    dirs := r.2 ++ [Directive.rerunIfChanged "rocksdb/"] ++ out.dirs
                    earlyReturn := false
                    plan := some out.cfg }
  else
    Except.ok { builtBundled := false
                dirs := r.2 ++ cpp_link_stdlib inp.env target
                earlyReturn := false
                plan := none }

/-- The observable outcome of one full `main` run: the ordered `cargo:`
lines and the compilation plans produced. -/
structure RunResult where
  directives : List Directive
  builtRocksdb : Bool
  builtSnappy : Bool
  rocksdbPlan : Option CcBuild
  snappyPlan : Option CcBuild
deriving DecidableEq, Repr

/-- The snappy phase of `main` (lines 700-704): when the feature is enabled
and no system snappy is found, the bundled snappy is built after the
empty-directory check.  Returns the emitted lines, whether the bundled
build ran, and its plan. -/
def snappyPhase (inp : BuildInput) (nix : NixPaths) (target : String) :
    Except String (List Directive × Bool × Option CcBuild) :=
  if inp.features.snappy then
    let s := try_to_find_and_link_lib inp.env "SNAPPY"
    if !s.1 then
      if inp.snappyDirEmpty then
        Except.error "the snappy directory is empty"
      else
        match build_snappy inp nix target with
        | Except.error e => Except.error e
        | Except.ok plan =>
          Except.ok (s.2 ++ [Directive.rerunIfChanged "snappy/"], true, some plan)
    else
      Except.ok (s.2, false, none)
  else
    Except.ok ([], false, none)

/-- Embedding of `main` (lines 604-714).  The environment-variable
removals/assignments of lines 636-665 affect only variables that the script
never reads afterwards (they configure the external toolchain and bindgen),
so they do not appear in the observable state.  Fallible steps in source
order: the submodule fetch when `rocksdb/AUTHORS` is missing, bindgen (which
unwraps `OUT_DIR`), the `TARGET` unwrap, the top-level phase, the snappy
phase, and the trailing metadata unwraps. -/
def mainRun (inp : BuildInput) : Except String RunResult :=
  let nix := default_nix_paths inp.env
  if !inp.authorsExists && !inp.submoduleUpdateOk then
    Except.error "Command failed"
  else if !inp.bindgenOk then
    Except.error "unable to generate rocksdb bindings"
  else
    match requiredEnv inp.env "OUT_DIR" with
    | Except.error e => Except.error e
    | Except.ok _ =>
      match requiredEnv inp.env "TARGET" with
      | Except.error e => Except.error e
      | Except.ok target =>
        match rocksdbPhase inp nix target with
        | Except.error e => Except.error e
        | Except.ok phase =>
          if phase.earlyReturn then
            Except.ok { directives := phase.dirs, builtRocksdb := false,
                        builtSnappy := false, rocksdbPlan := none, snappyPlan := none }
          else
            match snappyPhase inp nix target with
            | Except.error e => Except.error e
            | Except.ok snap =>
              match requiredEnv inp.env "CARGO_MANIFEST_DIR",
                    requiredEnv inp.env "OUT_DIR" with
              | Except.error e, _ => Except.error e
              | _, Except.error e => Except.error e
              | Except.ok manifestDir, Except.ok outDir =>
                Except.ok
                  { directives := phase.dirs ++ snap.1 ++
                      [Directive.cargoMeta "cargo_manifest_dir" manifestDir,
                       Directive.cargoMeta "out_dir" outDir]
                    builtRocksdb := phase.builtBundled
                    builtSnappy := snap.2.1
                    rocksdbPlan := phase.plan
                    snappyPlan := snap.2.2 }

/-! ## Helper lemmas about the per-dependency decision -/

/-- If the spec-level decision is `BuildBundled`, `try_to_find_and_link_lib`
returns `false` and emits no link directive. -/
theorem try_of_bundled (env : Env) (d : String)
    (h : decideSpec env d = DependencyDecision.BuildBundled) :
    (try_to_find_and_link_lib env d).1 = false ∧
    linkDirectivesOf (try_to_find_and_link_lib env d).2 = [] := by
  unfold decideSpec at h
  unfold try_to_find_and_link_lib
  by_cases hf : forcedCompile env d
  · rw [if_pos hf]
    exact ⟨rfl, rfl⟩
  · rw [if_neg hf] at h ⊢
    cases hl : envVar env (d ++ "_LIB_DIR") with
    | none => exact ⟨rfl, rfl⟩
    | some q => rw [hl] at h; cases h

/-- If the spec-level decision is `LinkSystem p st`, `try_to_find_and_link_lib`
returns `true` and emits exactly the rerun lines followed by the search-path
and mode/name link directives. -/
theorem try_of_link (env : Env) (d p : String) (st : Bool)
    (h : decideSpec env d = DependencyDecision.LinkSystem p st) :
    try_to_find_and_link_lib env d =
      (true,
       [Directive.rerunIfEnvChanged (d ++ "_COMPILE"),
        Directive.rerunIfEnvChanged (d ++ "_LIB_DIR"),
        Directive.rerunIfEnvChanged (d ++ "_STATIC"),
        Directive.linkSearch p,
        Directive.linkLib (if st then "static" else "dylib") (strToLower d)]) := by
  unfold decideSpec at h
  unfold try_to_find_and_link_lib
  by_cases hf : forcedCompile env d
  · rw [if_pos hf] at h; cases h
  · rw [if_neg hf] at h ⊢
    cases hl : envVar env (d ++ "_LIB_DIR") with
    | none => rw [hl] at h; cases h
    | some q =>
      rw [hl] at h
      have h' : DependencyDecision.LinkSystem q (envVar env (d ++ "_STATIC")).isSome
          = DependencyDecision.LinkSystem p st := h
      injection h' with h1 h2
      subst h1
      subst h2
      rfl

/-! ## Claim C1 -/

/-- Claim C1: for every dependency name `d`, the decision function follows
the three-way rule in order: a truthy `<d>_COMPILE` override yields
`BuildBundled` with no system-link directives; else a present `<d>_LIB_DIR`
yields `LinkSystem` whose search path is the variable's value and whose
static mode holds iff `<d>_STATIC` is set (false when unset); else
`BuildBundled`.  `decideSpec` is that rule written from the spec;
`try_to_find_and_link_lib` is the code; the theorem shows the code's
observable behaviour matches the rule in every case. -/
theorem claim_C1_three_way_rule (env : Env) (d : String) :
    (decideSpec env d = DependencyDecision.BuildBundled →
       (try_to_find_and_link_lib env d).1 = false ∧
       linkDirectivesOf (try_to_find_and_link_lib env d).2 = []) ∧
    (∀ p st, decideSpec env d = DependencyDecision.LinkSystem p st →
       (try_to_find_and_link_lib env d).1 = true ∧
       linkDirectivesOf (try_to_find_and_link_lib env d).2 =
         [Directive.linkSearch p,
          Directive.linkLib (if st then "static" else "dylib") (strToLower d)]) := by
  refine ⟨fun h => try_of_bundled env d h, fun p st h => ?_⟩
  rw [try_of_link env d p st h]
  exact ⟨rfl, rfl⟩

/-- Witness for C1 at a concrete input: `DEP_LIB_DIR` set to `/opt/lib`,
`DEP_STATIC` unset. -/
theorem claim_C1_witness :
    (try_to_find_and_link_lib [("DEP_LIB_DIR", "/opt/lib")] "DEP").1 = true ∧
    linkDirectivesOf (try_to_find_and_link_lib [("DEP_LIB_DIR", "/opt/lib")] "DEP").2 =
      [Directive.linkSearch "/opt/lib",
       Directive.linkLib (if false then "static" else "dylib") (strToLower "DEP")] :=
  (claim_C1_three_way_rule [("DEP_LIB_DIR", "/opt/lib")] "DEP").2 "/opt/lib" false (by decide)

/-! ## Claim C10 -/

/-- Claim C10: the `<d>_COMPILE` override forces the bundled build only when
its value lowercases to `"true"` or equals `"1"`; any other value behaves
exactly as if the variable were unset, so `<d>_LIB_DIR` discovery still
proceeds.  The last conjunct records the truthiness test itself. -/
theorem claim_C10_compile_truthiness (env : Env) (d v : String)
    (h : envVar env (d ++ "_COMPILE") = some v) :
    (isTruthy v = true →
       try_to_find_and_link_lib env d =
         (false, [Directive.rerunIfEnvChanged (d ++ "_COMPILE")])) ∧
    (isTruthy v = false → ∀ env' : Env,
       envVar env' (d ++ "_COMPILE") = none →
       envVar env' (d ++ "_LIB_DIR") = envVar env (d ++ "_LIB_DIR") →
       envVar env' (d ++ "_STATIC") = envVar env (d ++ "_STATIC") →
       try_to_find_and_link_lib env d = try_to_find_and_link_lib env' d) ∧
    isTruthy v = (strToLower v == "true" || v == "1") := by
  refine ⟨fun ht => ?_, fun ht env' hc hl hs => ?_, rfl⟩
  · unfold try_to_find_and_link_lib
    rw [if_pos (by unfold forcedCompile; rw [h]; exact ht)]
  · have hf : forcedCompile env d = false := by
      unfold forcedCompile; rw [h]; exact ht
    have hf' : forcedCompile env' d = false := by
      unfold forcedCompile; rw [hc]
    simp [try_to_find_and_link_lib, hf, hf', hl, hs]

/-- Witness for C10 at a concrete input: `DEP_COMPILE=yes` (not truthy)
with `DEP_LIB_DIR` set behaves exactly like the environment without
`DEP_COMPILE`. -/
theorem claim_C10_witness :
    try_to_find_and_link_lib [("DEP_COMPILE", "yes"), ("DEP_LIB_DIR", "/p")] "DEP" =
      try_to_find_and_link_lib [("DEP_LIB_DIR", "/p")] "DEP" :=
  (claim_C10_compile_truthiness [("DEP_COMPILE", "yes"), ("DEP_LIB_DIR", "/p")] "DEP" "yes"
      (by decide)).2.1 (by decide) [("DEP_LIB_DIR", "/p")] (by decide) (by decide) (by decide)

/-! ## Claim C4 -/

/-- Claim C4: the resolver is deterministic.  The whole run is embedded as
the pure function `mainRun` of one input snapshot (target and cargo
variables inside `env`, feature set, and the recorded outcomes of every
external probe: filesystem state, compiler-family detection, flag-support
probes, the master source list).  Two runs with identical snapshots return
identical results — plans, directives and all; diagnostics are outside the
modelled state. -/
theorem claim_C4_deterministic (inp1 inp2 : BuildInput) (h : inp1 = inp2) :
    mainRun inp1 = mainRun inp2 := by
  rw [h]

/-- A concrete full-run input for the C4 witness. -/
def c4Input : BuildInput :=
  { env := [("TARGET", "x86_64-unknown-linux-gnu"), ("OUT_DIR", "/out"),
            ("CARGO_MANIFEST_DIR", "/src"), ("CARGO_CFG_TARGET_POINTER_WIDTH", "64")]
    features := ⟨false, false, false, false, false, false, false, false, false, false⟩
    isLikeClang := false
    supportedFlags := []
    authorsExists := true
    submoduleUpdateOk := true
    bindgenOk := true
    rocksdbDirEmpty := false
    snappyDirEmpty := false
    snappyStubsOk := true
    masterSources := ["db/db_impl.cc", "util/build_version.cc"]
    uringAvailable := false }

/-- Witness for C4: two runs at the same concrete snapshot agree. -/
theorem claim_C4_witness : mainRun c4Input = mainRun c4Input :=
  claim_C4_deterministic c4Input c4Input rfl

/-! ## Claim C2 -/

/-- If `try_to_find_and_link_lib` reports success, `<d>_LIB_DIR` was set and
the emitted lines are exactly the three rerun lines, the search path, and
the mode/name link line (mode `static` iff `<d>_STATIC` is set). -/
theorem try_fst_true (env : Env) (d : String)
    (h : (try_to_find_and_link_lib env d).1 = true) :
    ∃ p, envVar env (d ++ "_LIB_DIR") = some p ∧
      try_to_find_and_link_lib env d =
        (true,
         [Directive.rerunIfEnvChanged (d ++ "_COMPILE"),
          Directive.rerunIfEnvChanged (d ++ "_LIB_DIR"),
          Directive.rerunIfEnvChanged (d ++ "_STATIC"),
          Directive.linkSearch p,
          Directive.linkLib
            (if (envVar env (d ++ "_STATIC")).isSome then "static" else "dylib")
            (strToLower d)]) := by
  unfold try_to_find_and_link_lib at h ⊢
  by_cases hf : forcedCompile env d
  · rw [if_pos hf] at h; cases h
  · rw [if_neg hf] at h ⊢
    cases hl : envVar env (d ++ "_LIB_DIR") with
    | none => rw [hl] at h; cases h
    | some p => exact ⟨p, rfl, rfl⟩

/-- Claim C2: on every environment override state, when the target string
contains `"freebsd"` the bundled build of the top-level library is never
attempted: the phase succeeds without building, links the system `rocksdb`
(static iff `ROCKSDB_STATIC` is set), and when no `ROCKSDB_LIB_DIR`
override is given the search path is the fixed `/usr/local/lib`. -/
theorem claim_C2_freebsd_carveout (inp : BuildInput) (nix : NixPaths)
    (target : String) (h : strContains target "freebsd" = true) :
    ∃ r, rocksdbPhase inp nix target = Except.ok r ∧
      r.builtBundled = false ∧
      Directive.linkLib
        (if (envVar inp.env "ROCKSDB_STATIC").isSome then "static" else "dylib")
        "rocksdb" ∈ r.dirs ∧
      (envVar inp.env "ROCKSDB_LIB_DIR" = none →
        Directive.linkSearch "/usr/local/lib" ∈ r.dirs) := by
  have hlow : strToLower "ROCKSDB" = "rocksdb" := by decide
  cases hr : (try_to_find_and_link_lib inp.env "ROCKSDB").1
  case false =>
    have heq : rocksdbPhase inp nix target = Except.ok
        { builtBundled := false
          dirs := (try_to_find_and_link_lib inp.env "ROCKSDB").2 ++
            [Directive.linkSearch "/usr/local/lib",
             Directive.linkLib
               (if (envVar inp.env "ROCKSDB_STATIC").isSome then "static" else "dylib")
               "rocksdb"]
          earlyReturn := true
          plan := none } := by
      unfold rocksdbPhase
      simp only [hr, h, Bool.not_false, if_true]
    refine ⟨_, heq, rfl, by simp, fun _ => by simp⟩
  case true =>
    obtain ⟨p, hp, htry⟩ := try_fst_true inp.env "ROCKSDB" hr
    have heq : rocksdbPhase inp nix target = Except.ok
        { builtBundled := false
          dirs := (try_to_find_and_link_lib inp.env "ROCKSDB").2 ++
            cpp_link_stdlib inp.env target
          earlyReturn := false
          plan := none } := by
      unfold rocksdbPhase
      simp only [hr, Bool.not_true, Bool.false_eq_true, if_false]
    refine ⟨_, heq, rfl, ?_, fun hnone => ?_⟩
    · rw [htry, hlow]
      simp
    · rw [show ("ROCKSDB" ++ "_LIB_DIR" : String) = "ROCKSDB_LIB_DIR" from rfl] at hp
      rw [hp] at hnone
      cases hnone

/-- A concrete freebsd input with no overrides, for the C2 witness. -/
def c2Input : BuildInput :=
  { c4Input with
    env := [("TARGET", "x86_64-unknown-freebsd"), ("OUT_DIR", "/out"),
            ("CARGO_MANIFEST_DIR", "/src"), ("CARGO_CFG_TARGET_POINTER_WIDTH", "64")] }

/-- Witness for C2 at a concrete freebsd input with no overrides. -/
theorem claim_C2_witness :
    ∃ r, rocksdbPhase c2Input (default_nix_paths c2Input.env)
          "x86_64-unknown-freebsd" = Except.ok r ∧
      r.builtBundled = false ∧
      Directive.linkLib
        (if (envVar c2Input.env "ROCKSDB_STATIC").isSome then "static" else "dylib")
        "rocksdb" ∈ r.dirs ∧
      (envVar c2Input.env "ROCKSDB_LIB_DIR" = none →
        Directive.linkSearch "/usr/local/lib" ∈ r.dirs) :=
  claim_C2_freebsd_carveout c2Input (default_nix_paths c2Input.env)
    "x86_64-unknown-freebsd" (by decide)

/-! ## Claim C9 -/

/-- A `requiredEnv` failure always carries the missing-variable message. -/
theorem requiredEnv_error (env : Env) (name e : String)
    (h : requiredEnv env name = Except.error e) :
    e = "environment variable " ++ name ++ " is not set" := by
  unfold requiredEnv at h
  cases henv : envVar env name with
  | some v => rw [henv] at h; cases h
  | none => rw [henv] at h; injection h with h'; exact h'.symm

/-- Inversion for a successful `build_rocksdb`: the produced plan is exactly
the assembly of the segment functions, for some pointer width. -/
theorem build_rocksdb_ok_shape (inp : BuildInput) (nix : NixPaths)
    (target : String) (out : BuildOutput)
    (h : build_rocksdb inp nix target = Except.ok out) :
    ∃ width, out =
      { cfg := { compiler := nix.gcc_path ++ "/bin/g++"
                 includes := rocksdbIncludes inp.env inp.features nix target
                 defines := rocksdbDefines inp.features target width
                 flags := rocksdbFlags inp nix target
                 files := rocksdbFiles inp.masterSources inp.features target
                 staticCrt := strContains target "msvc" && inp.features.mtStatic }
        dirs := rocksdbBuildDirectives inp.env inp.features nix target } := by
  unfold build_rocksdb at h
  split at h
  · cases h
  · split at h
    · cases h
    · split at h
      · cases h
      · rename_i width heq
        injection h with h'
        exact ⟨width, h'.symm⟩

/-- When the LTO/compiler-family check passes, `build_rocksdb` never fails
with the LTO panic message (its other failure messages are distinct). -/
theorem build_rocksdb_not_lto_error (inp : BuildInput) (nix : NixPaths)
    (target : String) (hc : (inp.features.lto && !inp.isLikeClang) = false) :
    build_rocksdb inp nix target ≠ Except.error ltoPanicMsg := by
  unfold build_rocksdb
  rw [hc]
  simp only [Bool.false_eq_true, if_false]
  split
  · intro heq
    injection heq with h'
    exact absurd h' (by decide)
  · split
    · rename_i e heq
      intro hcontra
      injection hcontra with h'
      by_cases ht : (target == "armv7-linux-androideabi") = true
      · rw [if_pos ht] at heq
        cases heq
      · rw [if_neg ht] at heq
        have hmsg := requiredEnv_error inp.env "CARGO_CFG_TARGET_POINTER_WIDTH" e heq
        rw [hmsg] at h'
        exact absurd h' (by decide)
    · intro hcontra
      cases hcontra

/-- Claim C9: if the `lto` feature is requested and the resolved compiler is
not clang-like, `build_rocksdb` aborts with the explanatory LTO panic
message; when the compiler is clang-like, that abort never happens and any
successfully assembled plan carries the `-flto` flag. -/
theorem claim_C9_lto_requires_clang (inp : BuildInput) (nix : NixPaths)
    (target : String) (h : inp.features.lto = true) :
    (inp.isLikeClang = false →
       build_rocksdb inp nix target = Except.error ltoPanicMsg) ∧
    (inp.isLikeClang = true →
       build_rocksdb inp nix target ≠ Except.error ltoPanicMsg ∧
       ∀ out, build_rocksdb inp nix target = Except.ok out →
         "-flto" ∈ out.cfg.flags) := by
  constructor
  · intro hc
    unfold build_rocksdb
    rw [h, hc]
    rfl
  · intro hc
    refine ⟨build_rocksdb_not_lto_error inp nix target (by rw [h, hc]; rfl),
            fun out hout => ?_⟩
    obtain ⟨width, hw⟩ := build_rocksdb_ok_shape inp nix target out hout
    rw [hw]
    simp [rocksdbFlags, h]

/-- A concrete input with the `lto` feature requested and a non-clang
compiler, for the C9 witness. -/
def c9Input : BuildInput :=
  { c4Input with
    features := ⟨false, false, false, false, false, false, true, false, false, false⟩
    isLikeClang := false }

/-- Witness for C9: at the concrete non-clang input, the run aborts with the
LTO message. -/
theorem claim_C9_witness :
    build_rocksdb c9Input (default_nix_paths []) "x86_64-unknown-linux-gnu" =
      Except.error ltoPanicMsg :=
  (claim_C9_lto_requires_clang c9Input (default_nix_paths [])
      "x86_64-unknown-linux-gnu" rfl).1 rfl

/-! ## Define-assembly helpers (claims C3 and C5) -/

/-- The `OS_<FAMILY>`-style platform markers that the platform define chain
can emit. -/
def osMarkerNames : List String :=
  ["OS_MACOSX", "OS_ANDROID", "OS_AIX", "OS_LINUX", "OS_DRAGONFLYBSD",
   "OS_FREEBSD", "OS_NETBSD", "OS_OPENBSD", "OS_WIN"]

/-- Whether a define is a platform marker. -/
def isOsMarker (d : String × Option String) : Bool :=
  osMarkerNames.contains d.1

/-- Number of platform markers in a define list. -/
def markerCount (l : List (String × Option String)) : Nat :=
  l.countP isOsMarker

/-- A target is recognized when it contains at least one of the substrings
tested by the platform define chain. -/
def recognizedOsTarget (target : String) : Bool :=
  strContains target "apple-ios" || strContains target "darwin" ||
  strContains target "android" || strContains target "aix" ||
  strContains target "linux" || strContains target "dragonfly" ||
  strContains target "freebsd" || strContains target "netbsd" ||
  strContains target "openbsd" || strContains target "windows"

/-- Every define name that `codecDefines` can produce. -/
theorem mem_codecDefines_fst (f : Features) (x : String × Option String)
    (hx : x ∈ codecDefines f) :
    x.1 ∈ ["SNAPPY", "LZ4", "ZSTD", "ZLIB", "BZIP2", "USE_RTTI"] := by
  unfold codecDefines at hx
  split_ifs at hx <;> revert hx <;> revert x <;> decide

/-- Case analysis along the platform define chain: to prove a property of
`osDefines target`, prove it for each branch list under that branch's
conditions (earlier tests failed, this test succeeded). -/
theorem osDefines_cases (target : String)
    {motive : List (String × Option String) → Prop}
    (hios : strContains target "apple-ios" = true →
      motive [("OS_MACOSX", none), ("IOS_CROSS_COMPILE", none), ("PLATFORM", some "IOS"),
              ("NIOSTATS_CONTEXT", none), ("NPERF_CONTEXT", none),
              ("ROCKSDB_PLATFORM_POSIX", none), ("ROCKSDB_LIB_IO_POSIX", none)])
    (hdarwin : strContains target "darwin" = true →
      motive [("OS_MACOSX", none), ("ROCKSDB_PLATFORM_POSIX", none),
              ("ROCKSDB_LIB_IO_POSIX", none)])
    (handroid : strContains target "android" = true →
      motive ([("OS_ANDROID", none), ("ROCKSDB_PLATFORM_POSIX", none),
               ("ROCKSDB_LIB_IO_POSIX", none)] ++
        (if target == "armv7-linux-androideabi" then [("_FILE_OFFSET_BITS", some "32")] else [])))
    (haix : strContains target "aix" = true →
      motive [("OS_AIX", none), ("ROCKSDB_PLATFORM_POSIX", none),
              ("ROCKSDB_LIB_IO_POSIX", none)])
    (hlinux : strContains target "linux" = true →
      motive [("OS_LINUX", none), ("ROCKSDB_PLATFORM_POSIX", none),
              ("ROCKSDB_LIB_IO_POSIX", none), ("ROCKSDB_SCHED_GETCPU_PRESENT", none)])
    (hdragonfly : strContains target "dragonfly" = true →
      motive [("OS_DRAGONFLYBSD", none), ("ROCKSDB_PLATFORM_POSIX", none),
              ("ROCKSDB_LIB_IO_POSIX", none)])
    (hfreebsd : strContains target "freebsd" = true →
      motive [("OS_FREEBSD", none), ("ROCKSDB_PLATFORM_POSIX", none),
              ("ROCKSDB_LIB_IO_POSIX", none)])
    (hnetbsd : strContains target "netbsd" = true →
      motive [("OS_NETBSD", none), ("ROCKSDB_PLATFORM_POSIX", none),
              ("ROCKSDB_LIB_IO_POSIX", none)])
    (hopenbsd : strContains target "openbsd" = true →
      motive [("OS_OPENBSD", none), ("ROCKSDB_PLATFORM_POSIX", none),
              ("ROCKSDB_LIB_IO_POSIX", none)])
    (hwindows : strContains target "windows" = true →
      motive ([("DWIN32", none), ("OS_WIN", none), ("_MBCS", none), ("WIN64", none),
               ("NOMINMAX", none), ("ROCKSDB_WINDOWS_UTF8_FILENAMES", none)] ++
        (if target == "x86_64-pc-windows-gnu" then
           [("_POSIX_C_SOURCE", some "1"), ("_WIN32_WINNT", some "_WIN32_WINNT_VISTA")]
         else [])))
    (hnone : recognizedOsTarget target = false → motive []) :
    motive (osDefines target) := by
  unfold osDefines
  by_cases h1 : strContains target "apple-ios" = true
  · rw [if_pos h1]; exact hios h1
  rw [if_neg h1]
  by_cases h2 : strContains target "darwin" = true
  · rw [if_pos h2]; exact hdarwin h2
  rw [if_neg h2]
  by_cases h3 : strContains target "android" = true
  · rw [if_pos h3]; exact handroid h3
  rw [if_neg h3]
  by_cases h4 : strContains target "aix" = true
  · rw [if_pos h4]; exact haix h4
  rw [if_neg h4]
  by_cases h5 : strContains target "linux" = true
  · rw [if_pos h5]; exact hlinux h5
  rw [if_neg h5]
  by_cases h6 : strContains target "dragonfly" = true
  · rw [if_pos h6]; exact hdragonfly h6
  rw [if_neg h6]
  by_cases h7 : strContains target "freebsd" = true
  · rw [if_pos h7]; exact hfreebsd h7
  rw [if_neg h7]
  by_cases h8 : strContains target "netbsd" = true
  · rw [if_pos h8]; exact hnetbsd h8
  rw [if_neg h8]
  by_cases h9 : strContains target "openbsd" = true
  · rw [if_pos h9]; exact hopenbsd h9
  rw [if_neg h9]
  by_cases h10 : strContains target "windows" = true
  · rw [if_pos h10]; exact hwindows h10
  rw [if_neg h10]
  apply hnone
  unfold recognizedOsTarget
  simp only [Bool.or_eq_false_iff]
  exact ⟨⟨⟨⟨⟨⟨⟨⟨⟨Bool.eq_false_iff.mpr h1, Bool.eq_false_iff.mpr h2⟩,
    Bool.eq_false_iff.mpr h3⟩, Bool.eq_false_iff.mpr h4⟩, Bool.eq_false_iff.mpr h5⟩,
    Bool.eq_false_iff.mpr h6⟩, Bool.eq_false_iff.mpr h7⟩, Bool.eq_false_iff.mpr h8⟩,
    Bool.eq_false_iff.mpr h9⟩, Bool.eq_false_iff.mpr h10⟩

/-- Every define name that `osDefines` can produce. -/
theorem mem_osDefines_fst (target : String) :
    ∀ x ∈ osDefines target,
      x.1 ∈ ["OS_MACOSX", "IOS_CROSS_COMPILE", "PLATFORM", "NIOSTATS_CONTEXT",
             "NPERF_CONTEXT", "ROCKSDB_PLATFORM_POSIX", "ROCKSDB_LIB_IO_POSIX",
             "OS_ANDROID", "_FILE_OFFSET_BITS", "OS_AIX", "OS_LINUX",
             "ROCKSDB_SCHED_GETCPU_PRESENT", "OS_DRAGONFLYBSD", "OS_FREEBSD",
             "OS_NETBSD", "OS_OPENBSD", "DWIN32", "OS_WIN", "_MBCS", "WIN64",
             "NOMINMAX", "ROCKSDB_WINDOWS_UTF8_FILENAMES", "_POSIX_C_SOURCE",
             "_WIN32_WINNT"] := by
  refine osDefines_cases target (motive := fun l => ∀ x ∈ l, x.1 ∈ _)
    ?_ ?_ ?_ ?_ ?_ ?_ ?_ ?_ ?_ ?_ ?_ <;> intro _
  case refine_3 =>
    by_cases ha : (target == "armv7-linux-androideabi") = true
    · rw [if_pos ha]; decide
    · rw [if_neg ha]; decide
  case refine_10 =>
    by_cases ha : (target == "x86_64-pc-windows-gnu") = true
    · rw [if_pos ha]; decide
    · rw [if_neg ha]; decide
  all_goals decide

/-- Every define name that `jemallocDefines` can produce. -/
theorem mem_jemallocDefines_fst (f : Features) (target : String)
    (x : String × Option String) (hx : x ∈ jemallocDefines f target) :
    x.1 ∈ ["ROCKSDB_JEMALLOC", "JEMALLOC_NO_DEMANGLE"] := by
  unfold jemallocDefines at hx
  split_ifs at hx <;> revert hx <;> revert x <;> decide

/-- Every define name that `iouringDefines` can produce. -/
theorem mem_iouringDefines_fst (f : Features) (target : String)
    (x : String × Option String) (hx : x ∈ iouringDefines f target) :
    x.1 ∈ ["ROCKSDB_IOURING_PRESENT"] := by
  unfold iouringDefines at hx
  split_ifs at hx <;> revert hx <;> revert x <;> decide

/-- Every define name that `fileOffsetDefines` can produce. -/
theorem mem_fileOffsetDefines_fst (target width : String)
    (x : String × Option String) (hx : x ∈ fileOffsetDefines target width) :
    x.1 ∈ ["_FILE_OFFSET_BITS", "_LARGEFILE64_SOURCE"] := by
  unfold fileOffsetDefines at hx
  split_ifs at hx <;> revert hx <;> revert x <;> decide

/-- A define list whose names all avoid the marker set has marker count 0. -/
theorem markerCount_zero_of_names (l : List (String × Option String))
    (names : List String) (hn : ∀ x ∈ l, x.1 ∈ names)
    (hd : names.all (fun n => !(osMarkerNames.contains n)) = true) :
    markerCount l = 0 := by
  unfold markerCount
  rw [List.countP_eq_zero]
  intro x hx
  have h2 := List.all_eq_true.mp hd _ (hn x hx)
  unfold isOsMarker
  simpa using h2

/-- A define list whose names all avoid `name` contains no define named
`name`. -/
theorem not_mem_of_names (l : List (String × Option String))
    (names : List String) (hn : ∀ x ∈ l, x.1 ∈ names) (name : String)
    (hd : names.all (fun n => !(n == name)) = true) :
    ∀ v, (name, v) ∉ l := by
  intro v hx
  have h2 := List.all_eq_true.mp hd _ (hn _ hx)
  simp at h2

/-- The platform chain contributes exactly one marker on a recognized
target and none otherwise. -/
theorem markerCount_osDefines (target : String) :
    markerCount (osDefines target) =
      if recognizedOsTarget target then 1 else 0 := by
  refine osDefines_cases target
    (motive := fun l => markerCount l = if recognizedOsTarget target then 1 else 0)
    ?_ ?_ ?_ ?_ ?_ ?_ ?_ ?_ ?_ ?_ ?_
  case refine_3 =>
    intro h
    simp only [recognizedOsTarget, h, Bool.or_true, Bool.true_or, if_true]
    by_cases ha : (target == "armv7-linux-androideabi") = true
    · rw [if_pos ha]; decide
    · rw [if_neg ha]; decide
  case refine_10 =>
    intro h
    simp only [recognizedOsTarget, h, Bool.or_true, Bool.true_or, if_true]
    by_cases ha : (target == "x86_64-pc-windows-gnu") = true
    · rw [if_pos ha]; decide
    · rw [if_neg ha]; decide
  case refine_11 =>
    intro h
    rw [h]
    decide
  all_goals
    (intro h
     simp only [recognizedOsTarget, h, Bool.or_true, Bool.true_or, if_true]
     decide)

/-- The codec segment contributes no platform marker. -/
theorem markerCount_codecDefines (f : Features) :
    markerCount (codecDefines f) = 0 :=
  markerCount_zero_of_names _ _ (mem_codecDefines_fst f) (by decide)

/-- The jemalloc segment contributes no platform marker. -/
theorem markerCount_jemallocDefines (f : Features) (target : String) :
    markerCount (jemallocDefines f target) = 0 :=
  markerCount_zero_of_names _ _ (mem_jemallocDefines_fst f target) (by decide)

/-- The io-uring segment contributes no platform marker. -/
theorem markerCount_iouringDefines (f : Features) (target : String) :
    markerCount (iouringDefines f target) = 0 :=
  markerCount_zero_of_names _ _ (mem_iouringDefines_fst f target) (by decide)

/-- The large-file segment contributes no platform marker. -/
theorem markerCount_fileOffsetDefines (target width : String) :
    markerCount (fileOffsetDefines target width) = 0 :=
  markerCount_zero_of_names _ _ (mem_fileOffsetDefines_fst target width) (by decide)

/-- The full define list has exactly the platform chain's marker count. -/
theorem markerCount_rocksdbDefines (f : Features) (target width : String) :
    markerCount (rocksdbDefines f target width) =
      markerCount (osDefines target) := by
  have h1 := markerCount_codecDefines f
  have h2 := markerCount_jemallocDefines f target
  have h3 := markerCount_iouringDefines f target
  have h4 := markerCount_fileOffsetDefines target width
  have h5 : List.countP isOsMarker [("NDEBUG", some "1")] = 0 := by decide
  have h6 : List.countP isOsMarker [("ROCKSDB_SUPPORT_THREAD_LOCAL",
      (none : Option String))] = 0 := by decide
  unfold markerCount at h1 h2 h3 h4 ⊢
  unfold rocksdbDefines
  simp only [List.countP_append, h1, h2, h3, h4, h5, h6]
  omega

/-- Membership in the full define list factors through its seven segments,
in order. -/
theorem mem_rocksdbDefines_split (f : Features) (target width : String)
    (x : String × Option String) (hx : x ∈ rocksdbDefines f target width) :
    x ∈ codecDefines f ∨ x ∈ [(("NDEBUG" : String), some "1")] ∨
    x ∈ osDefines target ∨
    x ∈ [(("ROCKSDB_SUPPORT_THREAD_LOCAL" : String), (none : Option String))] ∨
    x ∈ jemallocDefines f target ∨ x ∈ iouringDefines f target ∨
    x ∈ fileOffsetDefines target width := by
  unfold rocksdbDefines at hx
  simp only [List.mem_append] at hx
  tauto

/-- Under the exclusion set, the jemalloc segment is empty. -/
theorem jemallocDefines_eq_nil (f : Features) (target : String)
    (h : NO_JEMALLOC_TARGETS.any (fun i => strContains target i) = true) :
    jemallocDefines f target = [] := by
  have hall : NO_JEMALLOC_TARGETS.all (fun i => !(strContains target i)) = false := by
    rcases List.any_eq_true.mp h with ⟨i, hi, hp⟩
    apply Bool.eq_false_iff.mpr
    intro hall
    have h2 := List.all_eq_true.mp hall i hi
    rw [hp] at h2
    simp at h2
  simp [jemallocDefines, jemallocActive, hall]

/-- The Android arm of the platform chain, reached when the iOS and Darwin
tests failed and the Android test succeeds. -/
theorem osDefines_android_branch (target : String)
    (h1 : strContains target "apple-ios" = false)
    (h2 : strContains target "darwin" = false)
    (h3 : strContains target "android" = true) :
    osDefines target =
      [("OS_ANDROID", none), ("ROCKSDB_PLATFORM_POSIX", none),
       ("ROCKSDB_LIB_IO_POSIX", none)] ++
      (if target == "armv7-linux-androideabi" then
         [("_FILE_OFFSET_BITS", some "32")] else []) := by
  unfold osDefines
  rw [if_neg (by simp [h1]), if_neg (by simp [h2]), if_pos h3]

/-! ## Claim C3 -/

/-- Claim C3: for every feature combination and environment, if the target
contains a member of the allocator exclusion set
(`android`, `dragonfly`, `musl`, `darwin`), the defines assembled by
`build_rocksdb` never include the `ROCKSDB_JEMALLOC` marker, no matter
whether the `jemalloc` feature was requested. -/
theorem claim_C3_jemalloc_exclusion (inp : BuildInput) (nix : NixPaths)
    (target : String)
    (h : NO_JEMALLOC_TARGETS.any (fun i => strContains target i) = true) :
    ∀ out, build_rocksdb inp nix target = Except.ok out →
      ∀ v, ("ROCKSDB_JEMALLOC", v) ∉ out.cfg.defines := by
  intro out hout v hx
  obtain ⟨width, hw⟩ := build_rocksdb_ok_shape inp nix target out hout
  subst hw
  have hx' : ("ROCKSDB_JEMALLOC", v) ∈ rocksdbDefines inp.features target width := hx
  rcases mem_rocksdbDefines_split _ _ _ _ hx' with hc | hc | hc | hc | hc | hc | hc
  · have h1 : "ROCKSDB_JEMALLOC" ∈
        ["SNAPPY", "LZ4", "ZSTD", "ZLIB", "BZIP2", "USE_RTTI"] :=
      mem_codecDefines_fst _ _ hc
    exact absurd h1 (by decide)
  · have h1 := List.mem_singleton.mp hc
    have h2 : "ROCKSDB_JEMALLOC" = "NDEBUG" := congrArg Prod.fst h1
    exact absurd h2 (by decide)
  · have h1 : "ROCKSDB_JEMALLOC" ∈
        ["OS_MACOSX", "IOS_CROSS_COMPILE", "PLATFORM", "NIOSTATS_CONTEXT",
         "NPERF_CONTEXT", "ROCKSDB_PLATFORM_POSIX", "ROCKSDB_LIB_IO_POSIX",
         "OS_ANDROID", "_FILE_OFFSET_BITS", "OS_AIX", "OS_LINUX",
         "ROCKSDB_SCHED_GETCPU_PRESENT", "OS_DRAGONFLYBSD", "OS_FREEBSD",
         "OS_NETBSD", "OS_OPENBSD", "DWIN32", "OS_WIN", "_MBCS", "WIN64",
         "NOMINMAX", "ROCKSDB_WINDOWS_UTF8_FILENAMES", "_POSIX_C_SOURCE",
         "_WIN32_WINNT"] :=
      mem_osDefines_fst target _ hc
    exact absurd h1 (by decide)
  · have h1 := List.mem_singleton.mp hc
    have h2 : "ROCKSDB_JEMALLOC" = "ROCKSDB_SUPPORT_THREAD_LOCAL" :=
      congrArg Prod.fst h1
    exact absurd h2 (by decide)
  · rw [jemallocDefines_eq_nil inp.features target h] at hc
    exact absurd hc (List.not_mem_nil _)
  · have h1 : "ROCKSDB_JEMALLOC" ∈ ["ROCKSDB_IOURING_PRESENT"] :=
      mem_iouringDefines_fst _ _ _ hc
    exact absurd h1 (by decide)
  · have h1 : "ROCKSDB_JEMALLOC" ∈ ["_FILE_OFFSET_BITS", "_LARGEFILE64_SOURCE"] :=
      mem_fileOffsetDefines_fst _ _ _ hc
    exact absurd h1 (by decide)

/-- A concrete input on a darwin target with the `jemalloc` feature
requested. -/
def c3Input : BuildInput :=
  { c4Input with
    env := [("TARGET", "aarch64-apple-darwin"), ("OUT_DIR", "/out"),
            ("CARGO_MANIFEST_DIR", "/src"), ("CARGO_CFG_TARGET_POINTER_WIDTH", "64")]
    features := ⟨false, false, false, false, false, false, false, true, false, false⟩ }

/-- The bundled plan produced at `c3Input`. -/
def c3Out : BuildOutput :=
  match build_rocksdb c3Input (default_nix_paths c3Input.env) "aarch64-apple-darwin" with
  | Except.ok out => out
  | Except.error _ => ⟨⟨"", [], [], [], [], false⟩, []⟩

/-- Witness for C3: on a darwin target with `jemalloc` requested, the
assembled defines avoid the allocator marker. -/
theorem claim_C3_witness :
    ("ROCKSDB_JEMALLOC", some "1") ∉ c3Out.cfg.defines :=
  claim_C3_jemalloc_exclusion c3Input (default_nix_paths c3Input.env)
    "aarch64-apple-darwin" (by decide) c3Out rfl (some "1")

/-! ## Claim C5 -/

/-- A concrete input whose target matches no arm of the platform chain. -/
def c5Input : BuildInput :=
  { c4Input with
    env := [("TARGET", "wasm32-unknown-unknown"), ("OUT_DIR", "/out"),
            ("CARGO_MANIFEST_DIR", "/src"), ("CARGO_CFG_TARGET_POINTER_WIDTH", "64")] }

/-- The bundled plan produced at `c5Input`. -/
def c5Out : BuildOutput :=
  match build_rocksdb c5Input (default_nix_paths c5Input.env) "wasm32-unknown-unknown" with
  | Except.ok out => out
  | Except.error _ => ⟨⟨"", [], [], [], [], false⟩, []⟩

/-- Counterexample to C5 as stated: the claim says exactly one
`OS_<FAMILY>`-style marker is emitted for every target string, but the run
on `wasm32-unknown-unknown` succeeds and emits zero platform markers (no
arm of the chain matches). -/
theorem claim_C5_counterexample :
    build_rocksdb c5Input (default_nix_paths c5Input.env) "wasm32-unknown-unknown" =
      Except.ok c5Out ∧
    markerCount c5Out.cfg.defines = 0 :=
  ⟨rfl, by decide⟩

/-- Claim C5 (amended): every successful run emits at most one
`OS_<FAMILY>`-style marker, and exactly one iff the target contains one of
the substrings tested by the chain; the chain is first-match — in
particular, when the iOS and Darwin tests fail and the target contains
`android` (even a target such as `armv7-linux-androideabi` that also
contains `linux`), the Android marker is emitted and the Linux marker is
not. -/
theorem claim_C5_amended (inp : BuildInput) (nix : NixPaths) (target : String)
    (out : BuildOutput) (h : build_rocksdb inp nix target = Except.ok out) :
    markerCount out.cfg.defines ≤ 1 ∧
    (markerCount out.cfg.defines = 1 ↔ recognizedOsTarget target = true) ∧
    (strContains target "apple-ios" = false →
     strContains target "darwin" = false →
     strContains target "android" = true →
       ("OS_ANDROID", (none : Option String)) ∈ out.cfg.defines ∧
       ∀ v, ("OS_LINUX", v) ∉ out.cfg.defines) := by
  obtain ⟨width, hw⟩ := build_rocksdb_ok_shape inp nix target out h
  subst hw
  have hmc : markerCount (rocksdbDefines inp.features target width) =
      if recognizedOsTarget target then 1 else 0 := by
    rw [markerCount_rocksdbDefines, markerCount_osDefines]
  refine ⟨?_, ?_, ?_⟩
  · show markerCount (rocksdbDefines inp.features target width) ≤ 1
    rw [hmc]
    split <;> decide
  · show markerCount (rocksdbDefines inp.features target width) = 1 ↔
      recognizedOsTarget target = true
    rw [hmc]
    by_cases hr : recognizedOsTarget target = true
    · simp [hr]
    · simp [hr]
  · intro h1 h2 h3
    have hos := osDefines_android_branch target h1 h2 h3
    constructor
    · show ("OS_ANDROID", (none : Option String)) ∈
        rocksdbDefines inp.features target width
      have hmem : ("OS_ANDROID", (none : Option String)) ∈ osDefines target := by
        rw [hos]
        simp
      unfold rocksdbDefines
      simp only [List.mem_append]
      tauto
    · intro v hx
      have hx' : ("OS_LINUX", v) ∈ rocksdbDefines inp.features target width := hx
      rcases mem_rocksdbDefines_split _ _ _ _ hx' with hc | hc | hc | hc | hc | hc | hc
      · have hn : "OS_LINUX" ∈
            ["SNAPPY", "LZ4", "ZSTD", "ZLIB", "BZIP2", "USE_RTTI"] :=
          mem_codecDefines_fst _ _ hc
        exact absurd hn (by decide)
      · have hn := List.mem_singleton.mp hc
        have hn2 : "OS_LINUX" = "NDEBUG" := congrArg Prod.fst hn
        exact absurd hn2 (by decide)
      · rw [hos] at hc
        have hn : ∀ x ∈ ([("OS_ANDROID", (none : Option String)),
            ("ROCKSDB_PLATFORM_POSIX", none), ("ROCKSDB_LIB_IO_POSIX", none)] ++
            (if target == "armv7-linux-androideabi" then
               [("_FILE_OFFSET_BITS", some "32")] else [])),
            x.1 ∈ ["OS_ANDROID", "ROCKSDB_PLATFORM_POSIX",
                   "ROCKSDB_LIB_IO_POSIX", "_FILE_OFFSET_BITS"] := by
          by_cases ha : (target == "armv7-linux-androideabi") = true
          · rw [if_pos ha]; decide
          · rw [if_neg ha]; decide
        have hn' : "OS_LINUX" ∈ ["OS_ANDROID", "ROCKSDB_PLATFORM_POSIX",
            "ROCKSDB_LIB_IO_POSIX", "_FILE_OFFSET_BITS"] := hn _ hc
        exact absurd hn' (by decide)
      · have hn := List.mem_singleton.mp hc
        have hn2 : "OS_LINUX" = "ROCKSDB_SUPPORT_THREAD_LOCAL" := congrArg Prod.fst hn
        exact absurd hn2 (by decide)
      · have hn : "OS_LINUX" ∈ ["ROCKSDB_JEMALLOC", "JEMALLOC_NO_DEMANGLE"] :=
          mem_jemallocDefines_fst _ _ _ hc
        exact absurd hn (by decide)
      · have hn : "OS_LINUX" ∈ ["ROCKSDB_IOURING_PRESENT"] :=
          mem_iouringDefines_fst _ _ _ hc
        exact absurd hn (by decide)
      · have hn : "OS_LINUX" ∈ ["_FILE_OFFSET_BITS", "_LARGEFILE64_SOURCE"] :=
          mem_fileOffsetDefines_fst _ _ _ hc
        exact absurd hn (by decide)

/-- A concrete input on the historical Android target that also contains
`linux`. -/
def c5wInput : BuildInput :=
  { c4Input with
    env := [("TARGET", "armv7-linux-androideabi"), ("OUT_DIR", "/out"),
            ("CARGO_MANIFEST_DIR", "/src"), ("CARGO_CFG_TARGET_POINTER_WIDTH", "32")] }

/-- The bundled plan produced at `c5wInput`. -/
def c5wOut : BuildOutput :=
  match build_rocksdb c5wInput (default_nix_paths c5wInput.env) "armv7-linux-androideabi" with
  | Except.ok out => out
  | Except.error _ => ⟨⟨"", [], [], [], [], false⟩, []⟩

/-- Witness for the amended C5 at `armv7-linux-androideabi`: the run emits
the Android marker and not the Linux one. -/
theorem claim_C5_witness :
    markerCount c5wOut.cfg.defines ≤ 1 ∧
    (markerCount c5wOut.cfg.defines = 1 ↔
      recognizedOsTarget "armv7-linux-androideabi" = true) ∧
    (strContains "armv7-linux-androideabi" "apple-ios" = false →
     strContains "armv7-linux-androideabi" "darwin" = false →
     strContains "armv7-linux-androideabi" "android" = true →
       ("OS_ANDROID", (none : Option String)) ∈ c5wOut.cfg.defines ∧
       ∀ v, ("OS_LINUX", v) ∉ c5wOut.cfg.defines) :=
  claim_C5_amended c5wInput (default_nix_paths c5wInput.env)
    "armv7-linux-androideabi" c5wOut rfl

/-! ## Claim C6 -/

/-- The features used by the C6 counterexample (all disabled). -/
def c6Feat : Features := ⟨false, false, false, false, false, false, false, false, false, false⟩

/-- A small master list for the C6 counterexample. -/
def c6CexMaster : List String :=
  ["util/build_version.cc", "port/port_posix.cc", "db/db.cc"]

/-- Counterexample to C6 as stated: the claim covers every target string
containing `"windows"`, but the source substitution happens on the
`windows` arm of the first-match platform chain, so a (degenerate) target
containing both `linux` and `windows` takes the `linux` arm: the POSIX file
stays and the windows replacements are absent. -/
theorem claim_C6_counterexample :
    strContains "x86_64-linux-windows" "windows" = true ∧
    "port/port_posix.cc" ∈ composedLibSources c6CexMaster c6Feat "x86_64-linux-windows" ∧
    "port/win/env_win.cc" ∉ composedLibSources c6CexMaster c6Feat "x86_64-linux-windows" := by
  decide

/-- Nothing survives the build-version filter under its own name. -/
theorem build_version_not_mem_filter (master : List String) :
    "util/build_version.cc" ∉
      master.filter (fun file => file != "util/build_version.cc") := by
  intro hmem
  have h := List.of_mem_filter hmem
  simp at h

/-- Claim C6 (amended): for a target taking the `windows` arm of the
platform chain, and any master list that does not already contain the six
windows replacement files, the composed source list contains none of the
four POSIX platform-abstraction files and each of the six replacements
exactly once; and in every run (any features, any target) the master-list
entry `util/build_version.cc` is dropped while the pre-generated
`build_version.cc` is added unconditionally to the compiled file list. -/
theorem claim_C6_windows_sources (master : List String) (f : Features)
    (target : String) (hw : windowsBranch target = true)
    (hmaster : ∀ w ∈ winSources, w ∉ master) :
    (∀ p ∈ posixSources, p ∉ composedLibSources master f target) ∧
    (∀ w ∈ winSources, (composedLibSources master f target).count w = 1) ∧
    (∀ f' : Features, ∀ t' : String,
       "util/build_version.cc" ∉ composedLibSources master f' t' ∧
       "build_version.cc" ∈ rocksdbFiles master f' t') := by
  refine ⟨?_, ?_, ?_⟩
  · intro p hp hmem
    unfold composedLibSources at hmem
    simp only [hw, if_true] at hmem
    have hdisj : ∀ q ∈ posixSources,
        q ∉ winSources ∧ q ∉ ["port/win/win_jemalloc.cc"] ∧
        posixSources.contains q = true := by decide
    rcases List.mem_append.mp hmem with hmem1 | hmem1
    · rcases List.mem_append.mp hmem1 with hmem2 | hmem2
      · have hpred := List.of_mem_filter hmem2
        rw [(hdisj p hp).2.2] at hpred
        simp at hpred
      · exact (hdisj p hp).1 hmem2
    · rcases hj : f.jemalloc
      · rw [hj] at hmem1
        simp at hmem1
      · rw [hj] at hmem1
        exact (hdisj p hp).2.1 hmem1
  · intro w hwin
    unfold composedLibSources
    simp only [hw, if_true]
    have hnot : w ∉ (master.filter
        (fun file => file != "util/build_version.cc")).filter
        (fun file => !(posixSources.contains file)) := by
      intro hmem
      exact hmaster w hwin
        (List.mem_of_mem_filter (List.mem_of_mem_filter hmem))
    have hz : ((master.filter (fun file => file != "util/build_version.cc")).filter
        (fun file => !(posixSources.contains file))).count w = 0 :=
      List.count_eq_zero.mpr hnot
    have hone : ∀ u ∈ winSources, winSources.count u = 1 ∧
        (["port/win/win_jemalloc.cc"] : List String).count u = 0 ∧
        ([] : List String).count u = 0 := by decide
    rw [List.count_append, List.count_append, hz]
    rcases hj : f.jemalloc
    · simp only [Bool.false_eq_true, if_false, List.count_nil, (hone w hwin).1]
    · simp only [eq_self_iff_true, if_true, (hone w hwin).1, (hone w hwin).2.1]
  · intro f' t'
    constructor
    · intro hmem
      unfold composedLibSources at hmem
      by_cases hb : windowsBranch t' = true
      · simp only [hb, if_true] at hmem
        rcases List.mem_append.mp hmem with hmem1 | hmem1
        · rcases List.mem_append.mp hmem1 with hmem2 | hmem2
          · exact build_version_not_mem_filter master
              (List.mem_of_mem_filter hmem2)
          · exact absurd hmem2 (by decide)
        · rcases hj : f'.jemalloc
          · rw [hj] at hmem1; simp at hmem1
          · rw [hj] at hmem1
            exact absurd hmem1 (by decide)
      · simp only [Bool.not_eq_true] at hb
        simp only [hb, if_false] at hmem
        exact build_version_not_mem_filter master hmem
    · unfold rocksdbFiles
      simp

/-- A concrete windows input for the C6 witness. -/
def c6wMaster : List String :=
  ["util/build_version.cc", "port/port_posix.cc", "env/env_posix.cc",
   "env/fs_posix.cc", "env/io_posix.cc", "db/db.cc"]

/-- The features used by the C6 witness (`jemalloc` enabled, so the glue
file is appended too). -/
def c6wFeat : Features := ⟨false, false, false, false, false, false, false, true, false, false⟩

/-- Witness for the amended C6 on `x86_64-pc-windows-msvc`. -/
theorem claim_C6_witness :
    (∀ p ∈ posixSources,
       p ∉ composedLibSources c6wMaster c6wFeat "x86_64-pc-windows-msvc") ∧
    (∀ w ∈ winSources,
       (composedLibSources c6wMaster c6wFeat "x86_64-pc-windows-msvc").count w = 1) ∧
    (∀ f' : Features, ∀ t' : String,
       "util/build_version.cc" ∉ composedLibSources c6wMaster f' t' ∧
       "build_version.cc" ∈ rocksdbFiles c6wMaster f' t') :=
  claim_C6_windows_sources c6wMaster c6wFeat "x86_64-pc-windows-msvc"
    (by decide) (by decide)

/-! ## Claim C7 -/

/-- A failed `try_to_find_and_link_lib` never emitted a link-lib line. -/
theorem try_no_linkLib_of_fst_false (env : Env) (d : String)
    (h : (try_to_find_and_link_lib env d).1 = false) :
    ∀ m n, Directive.linkLib m n ∉ (try_to_find_and_link_lib env d).2 := by
  intro m n
  unfold try_to_find_and_link_lib at h ⊢
  by_cases hf : forcedCompile env d
  · rw [if_pos hf]
    simp
  · rw [if_neg hf] at h ⊢
    cases hl : envVar env (d ++ "_LIB_DIR") with
    | some p => rw [hl] at h; cases h
    | none => simp

/-- On a successful top-level discovery, the phase appends exactly the
`cpp_link_stdlib` runtime directives after the discovery's lines. -/
theorem rocksdbPhase_of_found (inp : BuildInput) (nix : NixPaths)
    (target : String)
    (h : (try_to_find_and_link_lib inp.env "ROCKSDB").1 = true) :
    rocksdbPhase inp nix target = Except.ok
      { builtBundled := false
        dirs := (try_to_find_and_link_lib inp.env "ROCKSDB").2 ++
          cpp_link_stdlib inp.env target
        earlyReturn := false
        plan := none } := by
  unfold rocksdbPhase
  simp only [h, Bool.not_true, Bool.false_eq_true, if_false]

/-- Every link-lib line of `rocksdbBuildDirectives` names one of the
bundled-path libraries. -/
theorem linkLib_names_buildDirectives (env : Env) (f : Features)
    (nix : NixPaths) (target : String) (m n : String)
    (h : Directive.linkLib m n ∈ rocksdbBuildDirectives env f nix target) :
    n ∈ ["lz4", "zstd", "rpcrt4", "shlwapi"] := by
  unfold rocksdbBuildDirectives linkFn at h
  simp only [List.mem_append] at h
  rcases h with ((h | h) | h) | h
  · rcases hc : f.lz4 <;> rw [hc] at h <;> simp_all
  · rcases hc : f.zstd <;> rw [hc] at h <;> simp_all
  · rcases hc : windowsBranch target <;> rw [hc] at h
    · simp at h
    · simp only [if_true, eq_self_iff_true] at h
      rcases hp : ((strSplitOnChar '-' target).get? 2 == some "windows") <;>
        rw [hp] at h <;> simp_all
      rcases h with ⟨_, rfl⟩ | ⟨_, rfl⟩ <;> simp
  · rcases hc : strContains target "riscv64gc" <;> rw [hc] at h <;> simp_all

/-- A concrete input with `ROCKSDB_LIB_DIR` set on a windows-msvc target
and no `CXXSTDLIB` override. -/
def c7Input : BuildInput :=
  { c4Input with
    env := [("TARGET", "x86_64-pc-windows-msvc"), ("ROCKSDB_LIB_DIR", "/opt/lib"),
            ("OUT_DIR", "/out"), ("CARGO_MANIFEST_DIR", "/src")] }

/-- Counterexample to C7 as stated: the claim's "if and only if" requires a
runtime directive whenever the decision is `LinkSystem`, but with
`ROCKSDB_LIB_DIR` set on `x86_64-pc-windows-msvc` (no `CXXSTDLIB`), the
decision is `LinkSystem` and the phase emits no runtime directive at all:
its directive list is exactly the discovery's rerun/search/link lines. -/
theorem claim_C7_counterexample :
    decideSpec c7Input.env "ROCKSDB" =
      DependencyDecision.LinkSystem "/opt/lib" false ∧
    cpp_link_stdlib c7Input.env "x86_64-pc-windows-msvc" = [] ∧
    rocksdbPhase c7Input (default_nix_paths c7Input.env) "x86_64-pc-windows-msvc" =
      Except.ok
        { builtBundled := false
          dirs := [Directive.rerunIfEnvChanged "ROCKSDB_COMPILE",
                   Directive.rerunIfEnvChanged "ROCKSDB_LIB_DIR",
                   Directive.rerunIfEnvChanged "ROCKSDB_STATIC",
                   Directive.linkSearch "/opt/lib",
                   Directive.linkLib "dylib" "rocksdb"]
          earlyReturn := false
          plan := none } := by
  refine ⟨by decide, by decide, ?_⟩
  rw [rocksdbPhase_of_found c7Input (default_nix_paths c7Input.env)
    "x86_64-pc-windows-msvc" (by decide)]
  rfl

/-- Claim C7 (amended): runtime directives are emitted only on the
system-library path — when the top-level discovery succeeds, the phase
appends exactly `cpp_link_stdlib`'s output; when it fails (bundled build or
the freebsd carve-out), every emitted link-lib line names one of
`rocksdb`/`lz4`/`zstd`/`rpcrt4`/`shlwapi`, never a C++ runtime.  The
runtime name obeys the family mapping with the `CXXSTDLIB` override taking
precedence: apple/freebsd/openbsd → `c++`; else linux → `stdc++`; else aix
→ `c++` then `c++abi`; any other family gets no runtime directive. -/
theorem claim_C7_runtime_rule (inp : BuildInput) (nix : NixPaths)
    (target : String) :
    ((try_to_find_and_link_lib inp.env "ROCKSDB").1 = true →
       rocksdbPhase inp nix target = Except.ok
         { builtBundled := false
           dirs := (try_to_find_and_link_lib inp.env "ROCKSDB").2 ++
             cpp_link_stdlib inp.env target
           earlyReturn := false
           plan := none }) ∧
    ((try_to_find_and_link_lib inp.env "ROCKSDB").1 = false →
       ∀ r, rocksdbPhase inp nix target = Except.ok r →
         ∀ m n, Directive.linkLib m n ∈ r.dirs →
           n ∈ ["rocksdb", "lz4", "zstd", "rpcrt4", "shlwapi"]) ∧
    (∀ s, envVar inp.env "CXXSTDLIB" = some s →
       cpp_link_stdlib inp.env target = [Directive.linkLib "dylib" s]) ∧
    (envVar inp.env "CXXSTDLIB" = none →
       ((strContains target "apple" || strContains target "freebsd" ||
         strContains target "openbsd") = true →
          cpp_link_stdlib inp.env target = [Directive.linkLib "dylib" "c++"]) ∧
       ((strContains target "apple" || strContains target "freebsd" ||
         strContains target "openbsd") = false →
        strContains target "linux" = true →
          cpp_link_stdlib inp.env target = [Directive.linkLib "dylib" "stdc++"]) ∧
       ((strContains target "apple" || strContains target "freebsd" ||
         strContains target "openbsd") = false →
        strContains target "linux" = false →
        strContains target "aix" = true →
          cpp_link_stdlib inp.env target =
            [Directive.linkLib "dylib" "c++", Directive.linkLib "dylib" "c++abi"]) ∧
       ((strContains target "apple" || strContains target "freebsd" ||
         strContains target "openbsd") = false →
        strContains target "linux" = false →
        strContains target "aix" = false →
          cpp_link_stdlib inp.env target = [])) := by
  refine ⟨rocksdbPhase_of_found inp nix target, ?_, ?_, ?_⟩
  · intro hf r hr m n hmem
    unfold rocksdbPhase at hr
    simp only [hf, Bool.not_false, if_true] at hr
    by_cases hfb : strContains target "freebsd" = true
    · rw [if_pos hfb] at hr
      injection hr with hr'
      subst hr'
      rcases List.mem_append.mp hmem with h1 | h1
      · exact absurd h1 (try_no_linkLib_of_fst_false inp.env "ROCKSDB" hf m n)
      · simp only [List.mem_cons, List.mem_singleton, List.not_mem_nil,
          or_false] at h1
        rcases h1 with h1 | h1
        · cases h1
        · injection h1 with _ h2
          subst h2
          simp
    · rw [if_neg hfb] at hr
      split at hr
      · cases hr
      · split at hr
        · cases hr
        · rename_i out hout
          injection hr with hr'
          subst hr'
          obtain ⟨width, hw⟩ := build_rocksdb_ok_shape inp nix target out hout
          rcases List.mem_append.mp hmem with h1 | h1
          · rcases List.mem_append.mp h1 with h2 | h2
            · exact absurd h2 (try_no_linkLib_of_fst_false inp.env "ROCKSDB" hf m n)
            · simp at h2
          · have hdirs : out.dirs = rocksdbBuildDirectives inp.env inp.features nix target := by
              rw [hw]
            rw [hdirs] at h1
            have := linkLib_names_buildDirectives inp.env inp.features nix target m n h1
            have hsub : ∀ a ∈ (["lz4", "zstd", "rpcrt4", "shlwapi"] : List String),
                a ∈ (["rocksdb", "lz4", "zstd", "rpcrt4", "shlwapi"] : List String) := by
              decide
            exact hsub n this
  · intro s hs
    unfold cpp_link_stdlib
    rw [hs]
  · intro hnone
    unfold cpp_link_stdlib
    rw [hnone]
    refine ⟨fun h1 => by rw [if_pos h1], fun h1 h2 => ?_, fun h1 h2 h3 => ?_,
            fun h1 h2 h3 => ?_⟩
    · rw [if_neg (by simp [h1]), if_pos h2]
    · rw [if_neg (by simp [h1]), if_neg (by simp [h2]), if_pos h3]
    · rw [if_neg (by simp [h1]), if_neg (by simp [h2]), if_neg (by simp [h3])]

/-- A concrete linux input with `ROCKSDB_LIB_DIR` set, for the C7
witness. -/
def c7wInput : BuildInput :=
  { c4Input with
    env := [("TARGET", "x86_64-unknown-linux-gnu"), ("ROCKSDB_LIB_DIR", "/opt/lib"),
            ("OUT_DIR", "/out"), ("CARGO_MANIFEST_DIR", "/src")] }

/-- Witness for the amended C7: on linux with a system rocksdb, the phase
emits the discovery lines followed by the single `stdc++` runtime
directive. -/
theorem claim_C7_witness :
    rocksdbPhase c7wInput (default_nix_paths c7wInput.env)
        "x86_64-unknown-linux-gnu" = Except.ok
      { builtBundled := false
        dirs := (try_to_find_and_link_lib c7wInput.env "ROCKSDB").2 ++
          cpp_link_stdlib c7wInput.env "x86_64-unknown-linux-gnu"
        earlyReturn := false
        plan := none } ∧
    cpp_link_stdlib c7wInput.env "x86_64-unknown-linux-gnu" =
      [Directive.linkLib "dylib" "stdc++"] :=
  ⟨(claim_C7_runtime_rule c7wInput (default_nix_paths c7wInput.env)
      "x86_64-unknown-linux-gnu").1 (by decide),
   ((claim_C7_runtime_rule c7wInput (default_nix_paths c7wInput.env)
      "x86_64-unknown-linux-gnu").2.2.2 (by decide)).2.1 (by decide) (by decide)⟩

/-! ## Claim C8 -/

/-- A set `env::var(name).unwrap()` yields the value. -/
theorem requiredEnv_ok (env : Env) (name v : String)
    (h : envVar env name = some v) : requiredEnv env name = Except.ok v := by
  unfold requiredEnv
  rw [h]

/-- When the snappy feature is on and a system snappy is discovered, the
snappy phase emits exactly the discovery's lines and builds nothing. -/
theorem snappyPhase_of_found (inp : BuildInput) (nix : NixPaths)
    (target : String) (hsn : inp.features.snappy = true)
    (h : (try_to_find_and_link_lib inp.env "SNAPPY").1 = true) :
    snappyPhase inp nix target =
      Except.ok ((try_to_find_and_link_lib inp.env "SNAPPY").2, false, none) := by
  unfold snappyPhase
  simp only [hsn, eq_self_iff_true, if_true, h, Bool.not_true,
    Bool.false_eq_true, if_false]

/-- A concrete input where both the top-level library and snappy resolve to
`LinkSystem`. -/
def c8Input : BuildInput :=
  { c4Input with
    env := [("TARGET", "x86_64-unknown-linux-gnu"), ("ROCKSDB_LIB_DIR", "/opt/a"),
            ("SNAPPY_LIB_DIR", "/opt/b"), ("CARGO_MANIFEST_DIR", "/src"),
            ("OUT_DIR", "/out")]
    features := ⟨true, false, false, false, false, false, false, false, false, false⟩ }

/-- The run result at `c8Input`. -/
def c8Out : RunResult :=
  match mainRun c8Input with
  | Except.ok r => r
  | Except.error _ => ⟨[], false, false, none, none⟩

/-- Counterexample to C8 as stated: the claim requires each
`LinkSystem`-resolved dependency's search/link directives to appear before
the top-level library's link directive, but in the emitted sequence the
top-level `rocksdb` link line is at index 4 while snappy's search and link
lines are at indices 9 and 10 — after it.  The full directive list is shown
so the positions are the only occurrences. -/
theorem claim_C8_counterexample :
    mainRun c8Input = Except.ok c8Out ∧
    decideSpec c8Input.env "ROCKSDB" =
      DependencyDecision.LinkSystem "/opt/a" false ∧
    decideSpec c8Input.env "SNAPPY" =
      DependencyDecision.LinkSystem "/opt/b" false ∧
    c8Out.directives =
      [Directive.rerunIfEnvChanged "ROCKSDB_COMPILE",
       Directive.rerunIfEnvChanged "ROCKSDB_LIB_DIR",
       Directive.rerunIfEnvChanged "ROCKSDB_STATIC",
       Directive.linkSearch "/opt/a",
       Directive.linkLib "dylib" "rocksdb",
       Directive.linkLib "dylib" "stdc++",
       Directive.rerunIfEnvChanged "SNAPPY_COMPILE",
       Directive.rerunIfEnvChanged "SNAPPY_LIB_DIR",
       Directive.rerunIfEnvChanged "SNAPPY_STATIC",
       Directive.linkSearch "/opt/b",
       Directive.linkLib "dylib" "snappy",
       Directive.cargoMeta "cargo_manifest_dir" "/src",
       Directive.cargoMeta "out_dir" "/out"] ∧
    c8Out.directives.findIdx
      (fun x => decide (x = Directive.linkLib "dylib" "rocksdb")) = 4 ∧
    c8Out.directives.findIdx
      (fun x => decide (x = Directive.linkSearch "/opt/b")) = 9 ∧
    c8Out.directives.findIdx
      (fun x => decide (x = Directive.linkLib "dylib" "snappy")) = 10 :=
  ⟨rfl, by decide, by decide, by decide, by decide, by decide, by decide⟩

/-- Claim C8 (amended): when the top-level library and a `LinkSystem`
dependency (snappy) are both discovered, the emitted sequence places
the top-level library's directives first: the run's directive list splits
as `pre ++ post` with the top-level `rocksdb` link directive in `pre` and
the dependency's search-path and link directives in `post`. -/
theorem claim_C8_dependency_order (inp : BuildInput)
    (target p q mdir odir : String) (s t : Bool)
    (hA : inp.authorsExists = true)
    (hB : inp.bindgenOk = true)
    (hT : envVar inp.env "TARGET" = some target)
    (hR : decideSpec inp.env "ROCKSDB" = DependencyDecision.LinkSystem p s)
    (hsn : inp.features.snappy = true)
    (hS : decideSpec inp.env "SNAPPY" = DependencyDecision.LinkSystem q t)
    (hM : envVar inp.env "CARGO_MANIFEST_DIR" = some mdir)
    (hO : envVar inp.env "OUT_DIR" = some odir) :
    ∃ r pre post, mainRun inp = Except.ok r ∧
      r.directives = pre ++ post ∧
      Directive.linkLib (if s then "static" else "dylib") "rocksdb" ∈ pre ∧
      Directive.linkSearch q ∈ post ∧
      Directive.linkLib (if t then "static" else "dylib") "snappy" ∈ post := by
  have htryR := try_of_link inp.env "ROCKSDB" p s hR
  have hfR : (try_to_find_and_link_lib inp.env "ROCKSDB").1 = true := by
    rw [htryR]
  have htryS := try_of_link inp.env "SNAPPY" q t hS
  have hfS : (try_to_find_and_link_lib inp.env "SNAPPY").1 = true := by
    rw [htryS]
  have hphase := rocksdbPhase_of_found inp (default_nix_paths inp.env) target hfR
  have hsnap := snappyPhase_of_found inp (default_nix_paths inp.env) target hsn hfS
  have hmain : mainRun inp = Except.ok
      { directives := ((try_to_find_and_link_lib inp.env "ROCKSDB").2 ++
          cpp_link_stdlib inp.env target) ++
          (try_to_find_and_link_lib inp.env "SNAPPY").2 ++
          [Directive.cargoMeta "cargo_manifest_dir" mdir,
           Directive.cargoMeta "out_dir" odir]
        builtRocksdb := false
        builtSnappy := false
        rocksdbPlan := none
        snappyPlan := none } := by
    unfold mainRun
    rw [requiredEnv_ok inp.env "OUT_DIR" odir hO,
        requiredEnv_ok inp.env "TARGET" target hT]
    simp only [hA, hB, Bool.not_true, Bool.false_and, Bool.false_eq_true,
      if_false, hphase, hsnap,
      requiredEnv_ok inp.env "CARGO_MANIFEST_DIR" mdir hM,
      requiredEnv_ok inp.env "OUT_DIR" odir hO]
  refine ⟨_, (try_to_find_and_link_lib inp.env "ROCKSDB").2 ++
      cpp_link_stdlib inp.env target,
    (try_to_find_and_link_lib inp.env "SNAPPY").2 ++
      [Directive.cargoMeta "cargo_manifest_dir" mdir,
       Directive.cargoMeta "out_dir" odir],
    hmain, ?_, ?_, ?_, ?_⟩
  · simp [List.append_assoc]
  · rw [htryR]
    have hlow : strToLower "ROCKSDB" = "rocksdb" := by decide
    rw [hlow]
    simp
  · rw [htryS]
    simp
  · rw [htryS]
    have hlow : strToLower "SNAPPY" = "snappy" := by decide
    rw [hlow]
    simp

/-- Witness for the amended C8 at the concrete `c8Input`. -/
theorem claim_C8_witness :
    ∃ r pre post, mainRun c8Input = Except.ok r ∧
      r.directives = pre ++ post ∧
      Directive.linkLib (if false then "static" else "dylib") "rocksdb" ∈ pre ∧
      Directive.linkSearch "/opt/b" ∈ post ∧
      Directive.linkLib (if false then "static" else "dylib") "snappy" ∈ post :=
  claim_C8_dependency_order c8Input "x86_64-unknown-linux-gnu" "/opt/a" "/opt/b"
    "/src" "/out" false false rfl rfl (by decide) (by decide) rfl (by decide)
    (by decide) (by decide)

end RocksBuild
